import Mathlib

/-!
Shallow embedding of the god-casa simulation core (src/simulation.h,
src/simulation.c).  Each columnar SoA container becomes a structure of
functions from indices to values together with a count; float arithmetic is
modelled over an ordered field (rationals where the formulas are rational,
reals where square roots or exponentials occur).  Batch loops become
pointwise updates guarded by the index bound; scalar operations take the
C int index as an integer and reproduce the defensive range checks.
Divisions that the C code performs without any guard are made checked
(an Option result), so that a run which would divide by exactly zero in
IEEE arithmetic is visible as none.
-/

namespace GodCasa

/-- clampf from simulation.c: v below lo gives lo, v above hi gives hi,
otherwise v itself. -/
def clampf {α : Type} [LinearOrder α] (v lo hi : α) : α :=
  if v < lo then lo else if hi < v then hi else v

/-- lcg_next from simulation.c: one linear-congruential step on uint32. -/
def lcg_next (s : ℕ) : ℕ := (s * 1664525 + 1013904223) % 4294967296

/-- lcg_float from simulation.c: advance the seed once and map the top 24
bits into the unit interval; the C float arithmetic is exact here. -/
def lcg_float (s : ℕ) : ℚ := ((lcg_next s / 256 : ℕ) : ℚ) / 16777216

/-- PopSoA from simulation.h: the population container's parallel columns. -/
structure PopSoA (α : Type) where
  population : ℕ → α
  carrying_cap : ℕ → α
  growth_rate : ℕ → α
  susceptible : ℕ → α
  infected : ℕ → α
  recovered : ℕ → α
  beta : ℕ → α
  gamma_rec : ℕ → α
  food_supply : ℕ → α
  food_threshold : ℕ → α
  age_young : ℕ → α
  age_adult : ℕ → α
  age_elder : ℕ → α
  count : ℕ

/-- FaithSoA from simulation.h. -/
structure FaithSoA (α : Type) where
  faith_level : ℕ → α
  mana : ℕ → α
  mana_regen : ℕ → α
  heresy_rate : ℕ → α
  miracle_chance : ℕ → α
  devotee_count : ℕ → α
  temple_count : ℕ → α
  schism_risk : ℕ → α
  conversion_rate : ℕ → α
  divine_favor : ℕ → α
  count : ℕ

/-- CombatSoA from simulation.h. -/
structure CombatSoA (α : Type) where
  base_atk : ℕ → α
  armor : ℕ → α
  hp : ℕ → α
  max_hp : ℕ → α
  morale : ℕ → α
  morale_decay : ℕ → α
  hit_chance : ℕ → α
  crit_chance : ℕ → α
  crit_mult : ℕ → α
  rout_threshold : ℕ → α
  count : ℕ

/-- EconSoA from simulation.h. -/
structure EconSoA (α : Type) where
  resource : ℕ → α
  max_resource : ℕ → α
  gather_rate : ℕ → α
  depletion_rate : ℕ → α
  price : ℕ → α
  demand : ℕ → α
  supply : ℕ → α
  tax_rate : ℕ → α
  tax_collected : ℕ → α
  trade_volume : ℕ → α
  count : ℕ

/-- DivineSoA from simulation.h. -/
structure DivineSoA (α : Type) where
  energy : ℕ → α
  energy_cap : ℕ → α
  regen_rate : ℕ → α
  meteor_cost : ℕ → α
  heal_amount : ℕ → α
  heal_decay : ℕ → α
  terraform_cost : ℕ → α
  smite_power : ℕ → α
  blessing_mult : ℕ → α
  cooldown : ℕ → α
  count : ℕ

/-- TechSoA from simulation.h. -/
structure TechSoA (α : Type) where
  research_pts : ℕ → α
  research_rate : ℕ → α
  tech_cost : ℕ → α
  tech_level : ℕ → α
  golden_age_mult : ℕ → α
  golden_age_timer : ℕ → α
  culture : ℕ → α
  culture_spread : ℕ → α
  era : ℕ → α
  pop_bonus : ℕ → α
  count : ℕ

/-- EngineSoA from simulation.h. -/
structure EngineSoA (α : Type) where
  entropy : ℕ → α
  entropy_rate : ℕ → α
  grid_x : ℕ → α
  grid_y : ℕ → α
  inv_sqrt_val : ℕ → α
  inv_sqrt_out : ℕ → α
  stability : ℕ → α
  end_timer : ℕ → α
  victory_pts : ℕ → α
  chaos_mult : ℕ → α
  rng_state : ℕ → ℕ
  count : ℕ

/-- pop_logistic_growth from simulation.c: per index, dn = r * n * (1 - n/k)
and the population becomes clampf (n + dn * dt) 0 k.  The C body divides n
by k with no guard; the embedding makes that division checked, returning
none exactly when some in-range entry has carrying_cap = 0 — the case in
which the C code divides by exactly zero (and, at population 0, stores an
IEEE NaN in the array). -/
def pop_logistic_growth (p : PopSoA ℚ) (dt : ℚ) : Option (PopSoA ℚ) :=
  if ∀ i, i < p.count → p.carrying_cap i ≠ 0 then
    some { p with
      population := fun i =>
        if i < p.count then
          clampf (p.population i +
              p.growth_rate i * p.population i *
                (1 - p.population i / p.carrying_cap i) * dt)
            0 (p.carrying_cap i)
        else p.population i }
  else none

/-- The susceptible compartment after the unnormalised SIR update of
pop_sir_step: s - (beta * s * i / n) * dt. -/
def sirUpdS (n s0 i0 beta dt : ℚ) : ℚ := s0 - beta * s0 * i0 / n * dt

/-- The infected compartment after the unnormalised SIR update of
pop_sir_step: i + (beta * s * i / n - gamma * i) * dt. -/
def sirUpdI (n s0 i0 beta gam dt : ℚ) : ℚ :=
  i0 + (beta * s0 * i0 / n - gam * i0) * dt

/-- The recovered compartment after the unnormalised SIR update of
pop_sir_step: r + (gamma * i) * dt. -/
def sirUpdR (i0 r0 gam dt : ℚ) : ℚ := r0 + gam * i0 * dt

/-- One entry of pop_sir_step from simulation.c: indices with n ≤ 0 are
skipped; otherwise the compartments are updated by the mass-action terms
and, only when the updated total is positive, divided by that total and
clamped to the unit interval before being stored; when the total is not
positive nothing is written back (the division by n is guarded by n > 0 and
the division by total by total > 0, exactly as in the C body). -/
def sirEntry (n s0 i0 r0 beta gam dt : ℚ) : ℚ × ℚ × ℚ :=
  if n ≤ 0 then (s0, i0, r0)
  else
    let s1 := sirUpdS n s0 i0 beta dt
    let i1 := sirUpdI n s0 i0 beta gam dt
    let r1 := sirUpdR i0 r0 gam dt
    let total := s1 + i1 + r1
    if 0 < total then
      (clampf (s1 / total) 0 1, clampf (i1 / total) 0 1, clampf (r1 / total) 0 1)
    else (s0, i0, r0)

/-- pop_sir_step from simulation.c, applied over the whole container. -/
def pop_sir_step (p : PopSoA ℚ) (dt : ℚ) : PopSoA ℚ :=
  { p with
    susceptible := fun i =>
      if i < p.count then
        (sirEntry (p.population i) (p.susceptible i) (p.infected i)
          (p.recovered i) (p.beta i) (p.gamma_rec i) dt).1
      else p.susceptible i
    infected := fun i =>
      if i < p.count then
        (sirEntry (p.population i) (p.susceptible i) (p.infected i)
          (p.recovered i) (p.beta i) (p.gamma_rec i) dt).2.1
      else p.infected i
    recovered := fun i =>
      if i < p.count then
        (sirEntry (p.population i) (p.susceptible i) (p.infected i)
          (p.recovered i) (p.beta i) (p.gamma_rec i) dt).2.2
      else p.recovered i }

/-- combat_armor_mitigation from simulation.c: each element of the damage
array is scaled by (1 - armor / (armor + 100)).  The division is embedded
checked: none exactly when some in-range armor entry equals -100, the one
value at which the C code would divide by exactly zero. -/
def combat_armor_mitigation (c : CombatSoA ℚ) (dmg : ℕ → ℚ) : Option (ℕ → ℚ) :=
  if ∀ i, i < c.count → c.armor i + 100 ≠ 0 then
    some fun i =>
      if i < c.count then dmg i * (1 - c.armor i / (c.armor i + 100)) else dmg i
  else none

/-- combat_hit_roll from simulation.c: out of range writes the safe default
0; otherwise an LCG keyed to (attacker + 1) * 2246822519 decides the hit
against hit_chance.  The written flag is returned. -/
def combat_hit_roll (c : CombatSoA ℚ) (attacker : ℤ) : ℤ :=
  if attacker < 0 ∨ (c.count : ℤ) ≤ attacker then 0
  else if lcg_float ((attacker.toNat + 1) * 2246822519 % 4294967296) <
      c.hit_chance attacker.toNat then 1
  else 0

/-- combat_crit_roll from simulation.c: out of range writes the safe default
multiplier 1; otherwise an LCG keyed to (attacker + 1) * 3266489917 decides
between crit_mult and 1. -/
def combat_crit_roll (c : CombatSoA ℚ) (attacker : ℤ) : ℚ :=
  if attacker < 0 ∨ (c.count : ℤ) ≤ attacker then 1
  else if lcg_float ((attacker.toNat + 1) * 3266489917 % 4294967296) <
      c.crit_chance attacker.toNat then c.crit_mult attacker.toNat
  else 1

/-- combat_morale_boost from simulation.c: out of range is a no-op;
otherwise morale[unit] is raised by amount and clamped to the unit
interval. -/
def combat_morale_boost (c : CombatSoA ℚ) (unit : ℤ) (amount : ℚ) : CombatSoA ℚ :=
  if unit < 0 ∨ (c.count : ℤ) ≤ unit then c
  else { c with
    morale := Function.update c.morale unit.toNat
      (clampf (c.morale unit.toNat + amount) 0 1) }

/-- faith_ritual_cost from simulation.c: out of range is a no-op; otherwise
ritual_mana is deducted from mana[idx], clamped to the pool range 0..1000. -/
def faith_ritual_cost (f : FaithSoA ℚ) (idx : ℤ) (ritual_mana : ℚ) : FaithSoA ℚ :=
  if idx < 0 ∨ (f.count : ℤ) ≤ idx then f
  else { f with
    mana := Function.update f.mana idx.toNat
      (clampf (f.mana idx.toNat - ritual_mana) 0 1000) }

/-- The seed faith_miracle_check rebuilds for index i on every call:
(i + 1) * 2654435761 on uint32 — a constant of the index alone. -/
def miracleSeed (i : ℕ) : ℕ := (i + 1) * 2654435761 % 4294967296

/-- faith_miracle_check from simulation.c: for each in-range index the LCG
seed is rebuilt from the index constant, one draw is compared against
miracle_chance * divine_favor, and the 0/1 flag is written to the output
array; entries past count keep the caller's values.  No stored RNG state
and no tick counter is consulted. -/
def faith_miracle_check (f : FaithSoA ℚ) (out : ℕ → ℤ) : ℕ → ℤ := fun i =>
  if i < f.count then
    if lcg_float (miracleSeed i) < f.miracle_chance i * f.divine_favor i then 1
    else 0
  else out i

/-- econ_market_price from simulation.c, with the square root abstracted:
for each in-range index, supply is floored at 1, a nonpositive price is
replaced by the base 1, and the new price is
clampf (base * sqrt (demand / sup)) 0.01 MAX_PRICE with MAX_PRICE = 1000. -/
def econ_market_price {α : Type} [LinearOrderedField α] (sqrtF : α → α)
    (e : EconSoA α) : EconSoA α :=
  { e with
    price := fun i =>
      if i < e.count then
        clampf ((if 0 < e.price i then e.price i else 1) *
            sqrtF (e.demand i / (if 1 < e.supply i then e.supply i else 1)))
          (1 / 100) 1000
      else e.price i }

/-- econ_trade from simulation.c: both indices are range-checked; the
transferred amount is the smaller of amount and the seller's stock; each
side's stock is clamped to its own capacity range and both trade_volume
counters grow by the transferred amount.  The two containers are modelled
as distinct (the seller/buyer contract of simulation.h). -/
def econ_trade (seller : EconSoA ℚ) (si : ℤ) (buyer : EconSoA ℚ) (bi : ℤ)
    (amount : ℚ) : EconSoA ℚ × EconSoA ℚ :=
  if si < 0 ∨ (seller.count : ℤ) ≤ si then (seller, buyer)
  else if bi < 0 ∨ (buyer.count : ℤ) ≤ bi then (seller, buyer)
  else
    let s := si.toNat
    let b := bi.toNat
    let actual :=
      if amount < seller.resource s then amount else seller.resource s
    ({ seller with
        resource := Function.update seller.resource s
          (clampf (seller.resource s - actual) 0 (seller.max_resource s))
        trade_volume := Function.update seller.trade_volume s
          (seller.trade_volume s + actual) },
     { buyer with
        resource := Function.update buyer.resource b
          (clampf (buyer.resource b + actual) 0 (buyer.max_resource b))
        trade_volume := Function.update buyer.trade_volume b
          (buyer.trade_volume b + actual) })

/-- divine_meteor_cost from simulation.c: out of range writes can_cast = 0
and changes nothing; with enough energy the cost is deducted (clamped to
the capacity range) and can_cast = 1; otherwise can_cast = 0 and nothing
changes. -/
def divine_meteor_cost (d : DivineSoA ℚ) (god : ℤ) : DivineSoA ℚ × ℤ :=
  if god < 0 ∨ (d.count : ℤ) ≤ god then (d, 0)
  else
    let g := god.toNat
    if d.meteor_cost g ≤ d.energy g then
      ({ d with
          energy := Function.update d.energy g
            (clampf (d.energy g - d.meteor_cost g) 0 (d.energy_cap g)) }, 1)
    else (d, 0)

/-- divine_terraform_cost from simulation.c: as divine_meteor_cost but the
cost is terraform_cost * tiles. -/
def divine_terraform_cost (d : DivineSoA ℚ) (god : ℤ) (tiles : ℤ) :
    DivineSoA ℚ × ℤ :=
  if god < 0 ∨ (d.count : ℤ) ≤ god then (d, 0)
  else
    let g := god.toNat
    let total := d.terraform_cost g * (tiles : ℚ)
    if total ≤ d.energy g then
      ({ d with
          energy := Function.update d.energy g
            (clampf (d.energy g - total) 0 (d.energy_cap g)) }, 1)
    else (d, 0)

/-- divine_smite from simulation.c: after the range checks the damage
smite_power - armor * 0.25 (floored at 1) is applied to the target
unconditionally, and energy is reduced by smite_power * 0.1 clamped at
zero — there is no energy >= cost test. -/
def divine_smite (d : DivineSoA ℚ) (c : CombatSoA ℚ) (god target : ℤ) :
    DivineSoA ℚ × CombatSoA ℚ :=
  if god < 0 ∨ (d.count : ℤ) ≤ god then (d, c)
  else if target < 0 ∨ (c.count : ℤ) ≤ target then (d, c)
  else
    let g := god.toNat
    let t := target.toNat
    let dmg0 := d.smite_power g - c.armor t * (1 / 4)
    let dmg := if dmg0 < 1 then 1 else dmg0
    ({ d with
        energy := Function.update d.energy g
          (clampf (d.energy g - d.smite_power g * (1 / 10)) 0 (d.energy_cap g)) },
     { c with
        hp := Function.update c.hp t (clampf (c.hp t - dmg) 0 (c.max_hp t)) })

/-- divine_blessing from simulation.c: after the range checks base_atk and
max_hp are multiplied by blessing_mult, hp is scaled and clamped against
the already-updated max_hp, and 10 energy is deducted clamped at zero —
there is no energy >= cost test. -/
def divine_blessing (d : DivineSoA ℚ) (c : CombatSoA ℚ) (god target : ℤ) :
    DivineSoA ℚ × CombatSoA ℚ :=
  if god < 0 ∨ (d.count : ℤ) ≤ god then (d, c)
  else if target < 0 ∨ (c.count : ℤ) ≤ target then (d, c)
  else
    let g := god.toNat
    let t := target.toNat
    let mult := d.blessing_mult g
    ({ d with
        energy := Function.update d.energy g
          (clampf (d.energy g - 10) 0 (d.energy_cap g)) },
     { c with
        base_atk := Function.update c.base_atk t (c.base_atk t * mult)
        max_hp := Function.update c.max_hp t (c.max_hp t * mult)
        hp := Function.update c.hp t
          (clampf (c.hp t * mult) 0 (c.max_hp t * mult)) })

/-- tech_cost_scale from simulation.c, with the exponential abstracted: for
each in-range index the exponent tech_level * 0.3 is clamped to 0..20 and
tech_cost becomes 100 * exp of it. -/
def tech_cost_scale {α : Type} [LinearOrderedField α] (expF : α → α)
    (t : TechSoA α) : TechSoA α :=
  { t with
    tech_cost := fun i =>
      if i < t.count then 100 * expF (clampf (t.tech_level i * (3 / 10)) 0 20)
      else t.tech_cost i }

/-- engine_stability_update, following the declaration of simulation.h
(line 323, taking the engine, population and technology containers) and the
loop body of simulation.c lines 1335-1348.  The definition in simulation.c
omits the PopSoA parameter that its own body dereferences as p, so that
translation unit does not compile as written; the embedding binds p as the
header declares.  Per in-range index: tech_norm = clampf (tech_level/50) 0 1
(0.5 past the tech count), pop_pressure = clampf (population/(carrying_cap+1))
0 1 (0 past the population count), and stability becomes
clampf ((1-entropy) * (0.5 + 0.5*tech_norm) * (1 - 0.5*pop_pressure)) 0 1. -/
def engine_stability_update (e : EngineSoA ℚ) (p : PopSoA ℚ) (t : TechSoA ℚ) :
    EngineSoA ℚ :=
  { e with
    stability := fun i =>
      if i < e.count then
        clampf ((1 - e.entropy i) *
            (1 / 2 + 1 / 2 *
              (if i < t.count then clampf (t.tech_level i / 50) 0 1 else 1 / 2)) *
            (1 - 1 / 2 *
              (if i < p.count then
                clampf (p.population i / (p.carrying_cap i + 1)) 0 1
              else 0)))
          0 1
      else e.stability i }

/-- A one-slot population container at carrying capacity: population 100,
carrying_cap 100, growth_rate 0.1. -/
def pCap : PopSoA ℚ :=
  { population := fun _ => 100, carrying_cap := fun _ => 100,
    growth_rate := fun _ => 1 / 10, susceptible := fun _ => 1,
    infected := fun _ => 0, recovered := fun _ => 0, beta := fun _ => 0,
    gamma_rec := fun _ => 0, food_supply := fun _ => 10,
    food_threshold := fun _ => 10, age_young := fun _ => 1 / 3,
    age_adult := fun _ => 1 / 3, age_elder := fun _ => 1 / 3, count := 1 }

/-- A one-slot population container with carrying capacity zero (a legal
capacity: its population 0 lies in [0, 0]) and growth rate zero. -/
def pK0 : PopSoA ℚ :=
  { population := fun _ => 0, carrying_cap := fun _ => 0,
    growth_rate := fun _ => 0, susceptible := fun _ => 1,
    infected := fun _ => 0, recovered := fun _ => 0, beta := fun _ => 0,
    gamma_rec := fun _ => 0, food_supply := fun _ => 10,
    food_threshold := fun _ => 10, age_young := fun _ => 1 / 3,
    age_adult := fun _ => 1 / 3, age_elder := fun _ => 1 / 3, count := 1 }

/-- A one-slot population container with carrying capacity zero and growth
rate one. -/
def pKr : PopSoA ℚ :=
  { population := fun _ => 0, carrying_cap := fun _ => 0,
    growth_rate := fun _ => 1, susceptible := fun _ => 1,
    infected := fun _ => 0, recovered := fun _ => 0, beta := fun _ => 0,
    gamma_rec := fun _ => 0, food_supply := fun _ => 10,
    food_threshold := fun _ => 10, age_young := fun _ => 1 / 3,
    age_adult := fun _ => 1 / 3, age_elder := fun _ => 1 / 3, count := 1 }

/-- A one-slot population container with positive population whose SIR
compartments are all zero. -/
def pSirZero : PopSoA ℚ :=
  { population := fun _ => 1, carrying_cap := fun _ => 10,
    growth_rate := fun _ => 0, susceptible := fun _ => 0,
    infected := fun _ => 0, recovered := fun _ => 0, beta := fun _ => 1,
    gamma_rec := fun _ => 1, food_supply := fun _ => 10,
    food_threshold := fun _ => 10, age_young := fun _ => 1 / 3,
    age_adult := fun _ => 1 / 3, age_elder := fun _ => 1 / 3, count := 1 }

/-- A one-slot population container with normalised SIR compartments
1/2, 1/4, 1/4 and zero transmission and recovery rates. -/
def pSir : PopSoA ℚ :=
  { population := fun _ => 1, carrying_cap := fun _ => 10,
    growth_rate := fun _ => 0, susceptible := fun _ => 1 / 2,
    infected := fun _ => 1 / 4, recovered := fun _ => 1 / 4,
    beta := fun _ => 0, gamma_rec := fun _ => 0, food_supply := fun _ => 10,
    food_threshold := fun _ => 10, age_young := fun _ => 1 / 3,
    age_adult := fun _ => 1 / 3, age_elder := fun _ => 1 / 3, count := 1 }

/-- A one-god divine container with zero energy, meteor cost 10, terraform
cost 5 per tile and smite power 20. -/
def dSmite : DivineSoA ℚ :=
  { energy := fun _ => 0, energy_cap := fun _ => 100,
    regen_rate := fun _ => 1, meteor_cost := fun _ => 10,
    heal_amount := fun _ => 5, heal_decay := fun _ => 1 / 10,
    terraform_cost := fun _ => 5, smite_power := fun _ => 20,
    blessing_mult := fun _ => 2, cooldown := fun _ => 0, count := 1 }

/-- A one-unit combat container with no armour, 50 of 100 hit points. -/
def cSmite : CombatSoA ℚ :=
  { base_atk := fun _ => 5, armor := fun _ => 0, hp := fun _ => 50,
    max_hp := fun _ => 100, morale := fun _ => 1,
    morale_decay := fun _ => 0, hit_chance := fun _ => 1 / 2,
    crit_chance := fun _ => 1 / 2, crit_mult := fun _ => 2,
    rout_threshold := fun _ => 1 / 10, count := 1 }

/-- A one-faction faith container: miracle chance 1/2, divine favor 1. -/
def fA : FaithSoA ℚ :=
  { faith_level := fun _ => 1 / 2, mana := fun _ => 5,
    mana_regen := fun _ => 1, heresy_rate := fun _ => 0,
    miracle_chance := fun _ => 1 / 2, devotee_count := fun _ => 10,
    temple_count := fun _ => 1, schism_risk := fun _ => 0,
    conversion_rate := fun _ => 0, divine_favor := fun _ => 1, count := 1 }

/-- A two-faction faith container agreeing with fA at index 0 on
miracle_chance and divine_favor but differing everywhere else. -/
def fB : FaithSoA ℚ :=
  { faith_level := fun _ => 1, mana := fun _ => 7,
    mana_regen := fun _ => 3, heresy_rate := fun _ => 1 / 5,
    miracle_chance := fun _ => 1 / 2, devotee_count := fun _ => 99,
    temple_count := fun _ => 4, schism_risk := fun _ => 1 / 8,
    conversion_rate := fun _ => 1 / 7, divine_favor := fun _ => 1, count := 2 }

/-- A one-pool economy container holding 50 of 100 resource units. -/
def eSell : EconSoA ℚ :=
  { resource := fun _ => 50, max_resource := fun _ => 100,
    gather_rate := fun _ => 1, depletion_rate := fun _ => 0,
    price := fun _ => 1, demand := fun _ => 1, supply := fun _ => 50,
    tax_rate := fun _ => 0, tax_collected := fun _ => 0,
    trade_volume := fun _ => 0, count := 1 }

/-- A one-pool economy container holding 10 of 100 resource units. -/
def eBuy : EconSoA ℚ :=
  { resource := fun _ => 10, max_resource := fun _ => 100,
    gather_rate := fun _ => 0, depletion_rate := fun _ => 0,
    price := fun _ => 2, demand := fun _ => 3, supply := fun _ => 10,
    tax_rate := fun _ => 0, tax_collected := fun _ => 0,
    trade_volume := fun _ => 0, count := 1 }

/-- A one-pool real-valued economy container with price 0, demand 1 and
supply 0. -/
def ePriceZero : EconSoA ℝ :=
  { resource := fun _ => 0, max_resource := fun _ => 100,
    gather_rate := fun _ => 0, depletion_rate := fun _ => 0,
    price := fun _ => 0, demand := fun _ => 1, supply := fun _ => 0,
    tax_rate := fun _ => 0, tax_collected := fun _ => 0,
    trade_volume := fun _ => 0, count := 1 }

/-- The market scenario container: resource 0, demand 10, supply 0,
price 1. -/
def eScen : EconSoA ℝ :=
  { resource := fun _ => 0, max_resource := fun _ => 100,
    gather_rate := fun _ => 0, depletion_rate := fun _ => 0,
    price := fun _ => 1, demand := fun _ => 10, supply := fun _ => 0,
    tax_rate := fun _ => 0, tax_collected := fun _ => 0,
    trade_volume := fun _ => 0, count := 1 }

/-- A one-civilisation real-valued technology container at tech level
1000. -/
def tTech : TechSoA ℝ :=
  { research_pts := fun _ => 0, research_rate := fun _ => 1,
    tech_cost := fun _ => 100, tech_level := fun _ => 1000,
    golden_age_mult := fun _ => 1, golden_age_timer := fun _ => 0,
    culture := fun _ => 0, culture_spread := fun _ => 0, era := fun _ => 0,
    pop_bonus := fun _ => 1, count := 1 }

/-- A one-civilisation rational technology container at tech level 25. -/
def tTechQ : TechSoA ℚ :=
  { research_pts := fun _ => 0, research_rate := fun _ => 1,
    tech_cost := fun _ => 100, tech_level := fun _ => 25,
    golden_age_mult := fun _ => 1, golden_age_timer := fun _ => 0,
    culture := fun _ => 0, culture_spread := fun _ => 0, era := fun _ => 0,
    pop_bonus := fun _ => 1, count := 1 }

/-- A one-faction engine container with entropy 1/2. -/
def eEng : EngineSoA ℚ :=
  { entropy := fun _ => 1 / 2, entropy_rate := fun _ => 0,
    grid_x := fun _ => 0, grid_y := fun _ => 0, inv_sqrt_val := fun _ => 1,
    inv_sqrt_out := fun _ => 1, stability := fun _ => 1,
    end_timer := fun _ => 100, victory_pts := fun _ => 0,
    chaos_mult := fun _ => 1, rng_state := fun _ => 1, count := 1 }

/-- The lower clamp bound is respected whenever the bounds are ordered. -/
theorem le_clampf {α : Type} [LinearOrder α] (v lo hi : α) (h : lo ≤ hi) :
    lo ≤ clampf v lo hi := by
  unfold clampf
  split
  · exact le_refl lo
  · split
    · exact h
    · exact le_of_not_lt (by assumption)

/-- The upper clamp bound is respected whenever the bounds are ordered. -/
theorem clampf_le {α : Type} [LinearOrder α] (v lo hi : α) (h : lo ≤ hi) :
    clampf v lo hi ≤ hi := by
  unfold clampf
  split
  · exact h
  · split
    · exact le_refl hi
    · exact le_of_not_lt (by assumption)

/-- Clamping a value already inside the bounds returns it unchanged. -/
theorem clampf_eq_self {α : Type} [LinearOrder α] {v lo hi : α}
    (h1 : lo ≤ v) (h2 : v ≤ hi) : clampf v lo hi = v := by
  unfold clampf
  rw [if_neg (not_lt.mpr h1), if_neg (not_lt.mpr h2)]

/-- The C idiom (a < b ? a : b) is the minimum. -/
theorem ite_lt_eq_min (a b : ℚ) : (if a < b then a else b) = min a b := by
  rcases le_total a b with h | h
  · rcases lt_or_eq_of_le h with h2 | h2
    · rw [if_pos h2, min_eq_left h]
    · subst h2
      rw [if_neg (lt_irrefl a), min_self]
  · rw [if_neg (not_lt.mpr h), min_eq_right h]

/-- C1 counterexample: divine_smite applies its effect without any energy
check.  With energy 0 (insufficient for the 2-energy deduction
smite_power * 0.1, and less than every positive cost) the target still
loses 20 hit points: the hp array changes from 50 to 30, so a failed
affordability check does not leave the world unchanged. -/
theorem divine_smite_unconditional_cex :
    dSmite.energy 0 = 0 ∧
    dSmite.smite_power 0 * (1 / 10) = 2 ∧
    cSmite.hp 0 = 50 ∧
    (divine_smite dSmite cSmite 0 0).2.hp 0 = 30 := by
  refine ⟨rfl, by norm_num [dSmite], rfl, ?_⟩
  norm_num [divine_smite, dSmite, cSmite, clampf, Function.update_same]

/-- C1 (amended): divine_meteor_cost and divine_terraform_cost are
two-phase afford-and-deduct operations: for an in-range god, when energy
covers the cost the call deducts exactly the cost (clamped to the capacity
range) and signals can_cast = 1, and when it does not the call changes
nothing and signals can_cast = 0; divine_smite and divine_blessing apply
their effect unconditionally (see the counterexample). -/
theorem divine_afford_deduct_amended (d : DivineSoA ℚ) (god tiles : ℤ)
    (h0 : 0 ≤ god) (h1 : god < (d.count : ℤ)) :
    (d.meteor_cost god.toNat ≤ d.energy god.toNat →
      divine_meteor_cost d god =
        ({ d with
            energy := Function.update d.energy god.toNat
              (clampf (d.energy god.toNat - d.meteor_cost god.toNat) 0
                (d.energy_cap god.toNat)) }, 1)) ∧
    (¬ d.meteor_cost god.toNat ≤ d.energy god.toNat →
      divine_meteor_cost d god = (d, 0)) ∧
    (d.terraform_cost god.toNat * (tiles : ℚ) ≤ d.energy god.toNat →
      divine_terraform_cost d god tiles =
        ({ d with
            energy := Function.update d.energy god.toNat
              (clampf (d.energy god.toNat - d.terraform_cost god.toNat * (tiles : ℚ))
                0 (d.energy_cap god.toNat)) }, 1)) ∧
    (¬ d.terraform_cost god.toNat * (tiles : ℚ) ≤ d.energy god.toNat →
      divine_terraform_cost d god tiles = (d, 0)) := by
  have hguard : ¬ (god < 0 ∨ (d.count : ℤ) ≤ god) := by omega
  refine ⟨fun hc => ?_, fun hc => ?_, fun hc => ?_, fun hc => ?_⟩
  · unfold divine_meteor_cost
    rw [if_neg hguard, if_pos hc]
  · unfold divine_meteor_cost
    rw [if_neg hguard, if_neg hc]
  · unfold divine_terraform_cost
    rw [if_neg hguard, if_pos hc]
  · unfold divine_terraform_cost
    rw [if_neg hguard, if_neg hc]

/-- C1 witness: the god with energy 0 and meteor cost 10 gets can_cast = 0
and an unchanged container from divine_meteor_cost, and likewise from
divine_terraform_cost for 2 tiles at cost 5 each. -/
theorem divine_afford_deduct_amended_witness :
    divine_meteor_cost dSmite 0 = (dSmite, 0) ∧
    divine_terraform_cost dSmite 0 2 = (dSmite, 0) := by
  have h := divine_afford_deduct_amended dSmite 0 2 (by decide) (by decide)
  exact ⟨h.2.1 (by norm_num [dSmite]), h.2.2.2 (by norm_num [dSmite])⟩

/-- C8: each scalar operation called with an index outside [0, count) —
negative or at least count — mutates nothing and writes its safe default
output: combat_morale_boost and faith_ritual_cost return their containers
unchanged, combat_hit_roll reports 0, combat_crit_roll reports
multiplier 1, and divine_meteor_cost reports can_cast = 0 with an
unchanged container. -/
theorem scalar_ops_invalid_index_noop (c : CombatSoA ℚ) (f : FaithSoA ℚ)
    (d : DivineSoA ℚ) (idx : ℤ) (amount ritual : ℚ)
    (hc : idx < 0 ∨ (c.count : ℤ) ≤ idx) (hf : idx < 0 ∨ (f.count : ℤ) ≤ idx)
    (hd : idx < 0 ∨ (d.count : ℤ) ≤ idx) :
    combat_morale_boost c idx amount = c ∧
    combat_hit_roll c idx = 0 ∧
    combat_crit_roll c idx = 1 ∧
    faith_ritual_cost f idx ritual = f ∧
    divine_meteor_cost d idx = (d, 0) := by
  refine ⟨?_, ?_, ?_, ?_, ?_⟩
  · unfold combat_morale_boost
    rw [if_pos hc]
  · unfold combat_hit_roll
    rw [if_pos hc]
  · unfold combat_crit_roll
    rw [if_pos hc]
  · unfold faith_ritual_cost
    rw [if_pos hf]
  · unfold divine_meteor_cost
    rw [if_pos hd]

/-- C8 witness: with one-slot containers and index 1 = count (one past the
end) every listed scalar operation is a no-op with its safe default. -/
theorem scalar_ops_invalid_index_noop_witness :
    combat_morale_boost cSmite 1 (1 / 2) = cSmite ∧
    combat_hit_roll cSmite 1 = 0 ∧
    combat_crit_roll cSmite 1 = 1 ∧
    faith_ritual_cost fA 1 3 = fA ∧
    divine_meteor_cost dSmite 1 = (dSmite, 0) :=
  scalar_ops_invalid_index_noop cSmite fA dSmite 1 (1 / 2) 3 (by decide)
    (by decide) (by decide)

/-- An index skipped for nonpositive population keeps its compartments. -/
theorem sirEntry_nonpos (n s0 i0 r0 beta gam dt : ℚ) (hn : n ≤ 0) :
    sirEntry n s0 i0 r0 beta gam dt = (s0, i0, r0) := by
  unfold sirEntry
  rw [if_pos hn]

/-- With positive population but nonpositive updated total, sirEntry writes
nothing back. -/
theorem sirEntry_total_nonpos (n s0 i0 r0 beta gam dt : ℚ) (hn : 0 < n)
    (ht : ¬ 0 < sirUpdS n s0 i0 beta dt + sirUpdI n s0 i0 beta gam dt +
      sirUpdR i0 r0 gam dt) :
    sirEntry n s0 i0 r0 beta gam dt = (s0, i0, r0) := by
  simp only [sirEntry]
  rw [if_neg (not_le.mpr hn), if_neg ht]

/-- With positive population and positive updated total, sirEntry stores the
clamped normalised compartments. -/
theorem sirEntry_pos (n s0 i0 r0 beta gam dt : ℚ) (hn : 0 < n)
    (ht : 0 < sirUpdS n s0 i0 beta dt + sirUpdI n s0 i0 beta gam dt +
      sirUpdR i0 r0 gam dt) :
    sirEntry n s0 i0 r0 beta gam dt =
      (clampf (sirUpdS n s0 i0 beta dt /
          (sirUpdS n s0 i0 beta dt + sirUpdI n s0 i0 beta gam dt +
            sirUpdR i0 r0 gam dt)) 0 1,
       clampf (sirUpdI n s0 i0 beta gam dt /
          (sirUpdS n s0 i0 beta dt + sirUpdI n s0 i0 beta gam dt +
            sirUpdR i0 r0 gam dt)) 0 1,
       clampf (sirUpdR i0 r0 gam dt /
          (sirUpdS n s0 i0 beta dt + sirUpdI n s0 i0 beta gam dt +
            sirUpdR i0 r0 gam dt)) 0 1) := by
  simp only [sirEntry]
  rw [if_neg (not_le.mpr hn), if_pos ht]

/-- C2 counterexample: with population 1 and all three compartments zero,
one pop_sir_step leaves the sum of the compartments at 0, not 1 — the
updated total is not positive, so the C body writes nothing back and no
renormalisation happens. -/
theorem pop_sir_step_sum_cex :
    0 < pSirZero.population 0 ∧
    (pop_sir_step pSirZero 1).susceptible 0 + (pop_sir_step pSirZero 1).infected 0 +
      (pop_sir_step pSirZero 1).recovered 0 = 0 := by
  constructor
  · norm_num [pSirZero]
  · norm_num [pop_sir_step, sirEntry, sirUpdS, sirUpdI, sirUpdR, pSirZero, clampf]

/-- C2 (amended): an in-range index with nonpositive population is skipped
with all three compartments unchanged; for positive population, whenever
the mass-action-updated compartments are all nonnegative with positive
total, the stored susceptible + infected + recovered sum is exactly 1, and
when the updated total is not positive nothing is written back. -/
theorem pop_sir_step_normalizes (p : PopSoA ℚ) (dt : ℚ) (i : ℕ)
    (hi : i < p.count) :
    (p.population i ≤ 0 →
      (pop_sir_step p dt).susceptible i = p.susceptible i ∧
      (pop_sir_step p dt).infected i = p.infected i ∧
      (pop_sir_step p dt).recovered i = p.recovered i) ∧
    (0 < p.population i →
      0 ≤ sirUpdS (p.population i) (p.susceptible i) (p.infected i) (p.beta i) dt →
      0 ≤ sirUpdI (p.population i) (p.susceptible i) (p.infected i) (p.beta i)
        (p.gamma_rec i) dt →
      0 ≤ sirUpdR (p.infected i) (p.recovered i) (p.gamma_rec i) dt →
      0 < sirUpdS (p.population i) (p.susceptible i) (p.infected i) (p.beta i) dt +
          sirUpdI (p.population i) (p.susceptible i) (p.infected i) (p.beta i)
            (p.gamma_rec i) dt +
          sirUpdR (p.infected i) (p.recovered i) (p.gamma_rec i) dt →
      (pop_sir_step p dt).susceptible i + (pop_sir_step p dt).infected i +
        (pop_sir_step p dt).recovered i = 1) ∧
    (0 < p.population i →
      ¬ 0 < sirUpdS (p.population i) (p.susceptible i) (p.infected i) (p.beta i) dt +
          sirUpdI (p.population i) (p.susceptible i) (p.infected i) (p.beta i)
            (p.gamma_rec i) dt +
          sirUpdR (p.infected i) (p.recovered i) (p.gamma_rec i) dt →
      (pop_sir_step p dt).susceptible i = p.susceptible i ∧
      (pop_sir_step p dt).infected i = p.infected i ∧
      (pop_sir_step p dt).recovered i = p.recovered i) := by
  refine ⟨?_, ?_, ?_⟩
  · intro hn
    unfold pop_sir_step
    dsimp only
    simp [if_pos hi, sirEntry_nonpos _ _ _ _ _ _ _ hn]
  · intro hn hs hinf hr ht
    unfold pop_sir_step
    dsimp only
    simp only [if_pos hi, sirEntry_pos _ _ _ _ _ _ _ hn ht]
    have hTle : le_of_lt ht = le_of_lt ht := rfl
    rw [clampf_eq_self (div_nonneg hs (le_of_lt ht))
        ((div_le_one ht).mpr (by linarith)),
      clampf_eq_self (div_nonneg hinf (le_of_lt ht))
        ((div_le_one ht).mpr (by linarith)),
      clampf_eq_self (div_nonneg hr (le_of_lt ht))
        ((div_le_one ht).mpr (by linarith)),
      div_add_div_same, div_add_div_same, div_self (ne_of_gt ht)]
  · intro hn ht
    unfold pop_sir_step
    dsimp only
    simp [if_pos hi, sirEntry_total_nonpos _ _ _ _ _ _ _ hn ht]

/-- C2 witness: a container with population 1, compartments 1/2, 1/4, 1/4
and zero rates keeps the sum at exactly 1 after one step. -/
theorem pop_sir_step_normalizes_witness :
    (pop_sir_step pSir 1).susceptible 0 + (pop_sir_step pSir 1).infected 0 +
      (pop_sir_step pSir 1).recovered 0 = 1 :=
  (pop_sir_step_normalizes pSir 1 0 (by decide)).2.1 (by norm_num [pSir])
    (by norm_num [pSir, sirUpdS]) (by norm_num [pSir, sirUpdI])
    (by norm_num [pSir, sirUpdR])
    (by norm_num [pSir, sirUpdS, sirUpdI, sirUpdR])

/-- C3 counterexample: pop_logistic_growth divides population by
carrying_cap with no epsilon floor or early return.  At the legal input
carrying_cap 0 = 0 with population 0 (inside [0, 0]) the division executes
with a denominator of exactly zero — in IEEE arithmetic 0/0 is NaN and the
stored population becomes NaN — so the checked embedding yields none. -/
theorem pop_logistic_growth_div_zero_cex :
    pK0.population 0 = 0 ∧ pK0.carrying_cap 0 = 0 ∧
    pop_logistic_growth pK0 0 = none := by
  refine ⟨rfl, rfl, ?_⟩
  unfold pop_logistic_growth
  rw [if_neg]
  intro h
  exact (h 0 (by decide)) rfl

/-- C3 (amended): the divisions of the cited transforms are safe away from
the unguarded zero-capacity case: when every in-range carrying_cap is
positive, pop_logistic_growth performs no zero division (it returns a
value), and when every in-range armor is nonnegative the denominator
armor + 100 of combat_armor_mitigation is never zero. -/
theorem guarded_division_amended (p : PopSoA ℚ) (c : CombatSoA ℚ) (dt : ℚ)
    (dmg : ℕ → ℚ) (hk : ∀ i, i < p.count → 0 < p.carrying_cap i)
    (ha : ∀ i, i < c.count → 0 ≤ c.armor i) :
    (∃ q, pop_logistic_growth p dt = some q) ∧
    (∃ dmg2, combat_armor_mitigation c dmg = some dmg2) := by
  constructor
  · exact ⟨_, by
      unfold pop_logistic_growth
      rw [if_pos fun i hi => ne_of_gt (hk i hi)]⟩
  · have h2 : ∀ i, i < c.count → c.armor i + 100 ≠ 0 := by
      intro i hi
      have := ha i hi
      exact ne_of_gt (by linarith)
    exact ⟨_, by
      unfold combat_armor_mitigation
      rw [if_pos h2]⟩

/-- C3 witness: at carrying capacity 100 and armor 0 both cited transforms
return values. -/
theorem guarded_division_amended_witness :
    (∃ q, pop_logistic_growth pCap 1 = some q) ∧
    (∃ dmg2, combat_armor_mitigation cSmite (fun _ => 10) = some dmg2) :=
  guarded_division_amended pCap cSmite 1 (fun _ => 10)
    (fun i hi => by norm_num [pCap]) (fun i hi => by norm_num [cSmite])

/-- C6 counterexample: at the legal input population 0, carrying_cap 0
(population inside [0, 0]), growth rate 1 and dt = 1, pop_logistic_growth
does not leave a population inside [0, carrying_cap]: the unguarded
division by carrying_cap = 0 means the C code stores NaN and the checked
embedding yields no container at all. -/
theorem pop_logistic_growth_range_cex :
    pKr.population 0 = 0 ∧ pKr.carrying_cap 0 = 0 ∧
    pop_logistic_growth pKr 1 = none := by
  refine ⟨rfl, rfl, ?_⟩
  unfold pop_logistic_growth
  rw [if_neg]
  intro h
  exact (h 0 (by decide)) rfl

/-- C6 (amended): for dt ≥ 0 and positive carrying capacities,
pop_logistic_growth returns a container whose every in-range population
lies in [0, carrying_cap]. -/
theorem pop_logistic_growth_in_range (p : PopSoA ℚ) (dt : ℚ) (_hdt : 0 ≤ dt)
    (hk : ∀ i, i < p.count → 0 < p.carrying_cap i) :
    ∃ q, pop_logistic_growth p dt = some q ∧
      ∀ i, i < p.count → 0 ≤ q.population i ∧ q.population i ≤ p.carrying_cap i := by
  have h1 : ∀ i, i < p.count → p.carrying_cap i ≠ 0 :=
    fun i hi => ne_of_gt (hk i hi)
  unfold pop_logistic_growth
  rw [if_pos h1]
  refine ⟨_, rfl, fun i hi => ?_⟩
  dsimp only
  rw [if_pos hi]
  exact ⟨le_clampf _ _ _ (le_of_lt (hk i hi)),
    clampf_le _ _ _ (le_of_lt (hk i hi))⟩

/-- C6 witness: the capacity scenario population 100, carrying_cap 100,
growth_rate 0.1 run for one dt = 1 tick stays inside range and yields
population exactly 100. -/
theorem pop_logistic_growth_in_range_witness :
    (∃ q, pop_logistic_growth pCap 1 = some q ∧
      ∀ i, i < pCap.count →
        0 ≤ q.population i ∧ q.population i ≤ pCap.carrying_cap i) ∧
    (pop_logistic_growth pCap 1).map (fun q => q.population 0) = some 100 := by
  refine ⟨pop_logistic_growth_in_range pCap 1 (by norm_num)
    (fun i hi => by norm_num [pCap]), ?_⟩
  have h1 : ∀ i, i < pCap.count → pCap.carrying_cap i ≠ 0 :=
    fun i hi => by norm_num [pCap]
  unfold pop_logistic_growth
  rw [if_pos h1]
  norm_num [pCap, clampf]

/-- C4: for every in-range index, the exponent tech_cost_scale feeds into
the exponential is clamped into [0, 20], the written cost is
100 * exp of that clamped exponent, and so the cost is bounded by
100 * exp 20 — never infinite — for every tech level. -/
theorem tech_cost_scale_exponent_clamped (t : TechSoA ℝ) (i : ℕ)
    (hi : i < t.count) :
    0 ≤ clampf (t.tech_level i * (3 / 10)) (0 : ℝ) 20 ∧
    clampf (t.tech_level i * (3 / 10)) (0 : ℝ) 20 ≤ 20 ∧
    (tech_cost_scale Real.exp t).tech_cost i =
      100 * Real.exp (clampf (t.tech_level i * (3 / 10)) 0 20) ∧
    (tech_cost_scale Real.exp t).tech_cost i ≤ 100 * Real.exp 20 := by
  have h0 : (0 : ℝ) ≤ 20 := by norm_num
  have hb := le_clampf (t.tech_level i * (3 / 10)) (0 : ℝ) 20 h0
  have ht := clampf_le (t.tech_level i * (3 / 10)) (0 : ℝ) 20 h0
  have heq : (tech_cost_scale Real.exp t).tech_cost i =
      100 * Real.exp (clampf (t.tech_level i * (3 / 10)) 0 20) := by
    unfold tech_cost_scale
    dsimp only
    rw [if_pos hi]
  refine ⟨hb, ht, heq, ?_⟩
  rw [heq]
  have hexp := Real.exp_le_exp.mpr ht
  linarith

/-- C4 witness: at tech level 1000 the exponent clamps to 20 and the cost
stays bounded by 100 * exp 20. -/
theorem tech_cost_scale_exponent_clamped_witness :
    tTech.tech_level 0 = 1000 ∧
    clampf ((1000 : ℝ) * (3 / 10)) 0 20 = 20 ∧
    (0 ≤ clampf (tTech.tech_level 0 * (3 / 10)) (0 : ℝ) 20 ∧
      clampf (tTech.tech_level 0 * (3 / 10)) (0 : ℝ) 20 ≤ 20 ∧
      (tech_cost_scale Real.exp tTech).tech_cost 0 =
        100 * Real.exp (clampf (tTech.tech_level 0 * (3 / 10)) 0 20) ∧
      (tech_cost_scale Real.exp tTech).tech_cost 0 ≤ 100 * Real.exp 20) :=
  ⟨rfl, by norm_num [clampf], tech_cost_scale_exponent_clamped tTech 0 (by decide)⟩

/-- C5: for in-range seller and buyer indices, econ_trade transfers exactly
min(amount, seller stock): the amount is bounded by both the request and
the stock, each side's stock moves by that amount clamped to its own
capacity range, both trade-volume counters grow by it, and whenever
neither clamp engages the resource sum is conserved. -/
theorem econ_trade_bounded_conserving (seller buyer : EconSoA ℚ) (si bi : ℤ)
    (amount : ℚ) (hs0 : 0 ≤ si) (hs1 : si < (seller.count : ℤ))
    (hb0 : 0 ≤ bi) (hb1 : bi < (buyer.count : ℤ)) :
    min amount (seller.resource si.toNat) ≤ amount ∧
    min amount (seller.resource si.toNat) ≤ seller.resource si.toNat ∧
    (econ_trade seller si buyer bi amount).1.resource si.toNat =
      clampf (seller.resource si.toNat - min amount (seller.resource si.toNat))
        0 (seller.max_resource si.toNat) ∧
    (econ_trade seller si buyer bi amount).2.resource bi.toNat =
      clampf (buyer.resource bi.toNat + min amount (seller.resource si.toNat))
        0 (buyer.max_resource bi.toNat) ∧
    (econ_trade seller si buyer bi amount).1.trade_volume si.toNat =
      seller.trade_volume si.toNat + min amount (seller.resource si.toNat) ∧
    (econ_trade seller si buyer bi amount).2.trade_volume bi.toNat =
      buyer.trade_volume bi.toNat + min amount (seller.resource si.toNat) ∧
    (0 ≤ seller.resource si.toNat - min amount (seller.resource si.toNat) →
      seller.resource si.toNat - min amount (seller.resource si.toNat) ≤
        seller.max_resource si.toNat →
      0 ≤ buyer.resource bi.toNat + min amount (seller.resource si.toNat) →
      buyer.resource bi.toNat + min amount (seller.resource si.toNat) ≤
        buyer.max_resource bi.toNat →
      (econ_trade seller si buyer bi amount).1.resource si.toNat +
        (econ_trade seller si buyer bi amount).2.resource bi.toNat =
        seller.resource si.toNat + buyer.resource bi.toNat) := by
  have hg1 : ¬ (si < 0 ∨ (seller.count : ℤ) ≤ si) := by omega
  have hg2 : ¬ (bi < 0 ∨ (buyer.count : ℤ) ≤ bi) := by omega
  simp only [econ_trade, if_neg hg1, if_neg hg2, ite_lt_eq_min,
    Function.update_same]
  refine ⟨min_le_left _ _, min_le_right _ _, by trivial, by trivial,
    by trivial, by trivial, ?_⟩
  intro c1 c2 c3 c4
  rw [clampf_eq_self c1 c2, clampf_eq_self c3 c4]
  ring

/-- C5 witness: trading 20 units from a seller holding 50 into a buyer
holding 10 (both capped at 100) moves exactly 20, conserves the resource
sum and raises both trade-volume counters by 20. -/
theorem econ_trade_bounded_conserving_witness :
    min (20 : ℚ) (eSell.resource 0) ≤ 20 ∧
    min (20 : ℚ) (eSell.resource 0) ≤ eSell.resource 0 ∧
    (econ_trade eSell 0 eBuy 0 20).1.resource 0 =
      clampf (eSell.resource 0 - min (20 : ℚ) (eSell.resource 0)) 0
        (eSell.max_resource 0) ∧
    (econ_trade eSell 0 eBuy 0 20).2.resource 0 =
      clampf (eBuy.resource 0 + min (20 : ℚ) (eSell.resource 0)) 0
        (eBuy.max_resource 0) ∧
    (econ_trade eSell 0 eBuy 0 20).1.trade_volume 0 =
      eSell.trade_volume 0 + min (20 : ℚ) (eSell.resource 0) ∧
    (econ_trade eSell 0 eBuy 0 20).2.trade_volume 0 =
      eBuy.trade_volume 0 + min (20 : ℚ) (eSell.resource 0) ∧
    (0 ≤ eSell.resource 0 - min (20 : ℚ) (eSell.resource 0) →
      eSell.resource 0 - min (20 : ℚ) (eSell.resource 0) ≤ eSell.max_resource 0 →
      0 ≤ eBuy.resource 0 + min (20 : ℚ) (eSell.resource 0) →
      eBuy.resource 0 + min (20 : ℚ) (eSell.resource 0) ≤ eBuy.max_resource 0 →
      (econ_trade eSell 0 eBuy 0 20).1.resource 0 +
        (econ_trade eSell 0 eBuy 0 20).2.resource 0 =
        eSell.resource 0 + eBuy.resource 0) :=
  econ_trade_bounded_conserving eSell eBuy 0 0 20 (by decide) (by decide)
    (by decide) (by decide)

/-- C7 counterexample: econ_market_price does not always write
price * sqrt(demand / max(supply, 1)) clamped: at price 0 (with demand 1,
supply 0) the C body substitutes the base 1 for the nonpositive price and
writes 1, while the claimed formula clamps 0 * sqrt 1 = 0 to the floor
0.01. -/
theorem econ_market_price_formula_cex :
    (econ_market_price Real.sqrt ePriceZero).price 0 ≠
      clampf (ePriceZero.price 0 * Real.sqrt (ePriceZero.demand 0 /
        (if 1 < ePriceZero.supply 0 then ePriceZero.supply 0 else 1)))
        (1 / 100) 1000 := by
  have hL : (econ_market_price Real.sqrt ePriceZero).price 0 = 1 := by
    unfold econ_market_price ePriceZero
    norm_num [clampf, Real.sqrt_one]
  have hR : clampf (ePriceZero.price 0 * Real.sqrt (ePriceZero.demand 0 /
      (if 1 < ePriceZero.supply 0 then ePriceZero.supply 0 else 1)))
      (1 / 100) 1000 = 1 / 100 := by
    unfold ePriceZero
    norm_num [clampf]
  rw [hL, hR]
  norm_num

/-- C7 (amended): for an in-range index with positive price, the new price
is exactly clampf (price * sqrt (demand / max(supply, 1))) 0.01 1000, and
in every case the written price lies between the floor 0.01 and the
MAX_PRICE ceiling 1000 — never infinite. -/
theorem econ_market_price_amended (e : EconSoA ℝ) (i : ℕ) (hi : i < e.count)
    (hp : 0 < e.price i) :
    (econ_market_price Real.sqrt e).price i =
      clampf (e.price i * Real.sqrt (e.demand i /
        (if 1 < e.supply i then e.supply i else 1))) (1 / 100) 1000 ∧
    (1 / 100 : ℝ) ≤ (econ_market_price Real.sqrt e).price i ∧
    (econ_market_price Real.sqrt e).price i ≤ 1000 := by
  have heq : (econ_market_price Real.sqrt e).price i =
      clampf (e.price i * Real.sqrt (e.demand i /
        (if 1 < e.supply i then e.supply i else 1))) (1 / 100) 1000 := by
    unfold econ_market_price
    dsimp only
    rw [if_pos hi, if_pos hp]
  refine ⟨heq, ?_, ?_⟩ <;> rw [heq]
  · exact le_clampf _ _ _ (by norm_num)
  · exact clampf_le _ _ _ (by norm_num)

/-- C7 witness: the scenario resource 0, demand 10, supply 0, price 1
yields the finite price clampf (sqrt 10) 0.01 1000, between the floor and
the ceiling. -/
theorem econ_market_price_amended_witness :
    ((econ_market_price Real.sqrt eScen).price 0 =
      clampf (eScen.price 0 * Real.sqrt (eScen.demand 0 /
        (if 1 < eScen.supply 0 then eScen.supply 0 else 1))) (1 / 100) 1000 ∧
    (1 / 100 : ℝ) ≤ (econ_market_price Real.sqrt eScen).price 0 ∧
    (econ_market_price Real.sqrt eScen).price 0 ≤ 1000) :=
  econ_market_price_amended eScen 0 (by decide) (by norm_num [eScen])

/-- C9: in the modelled engine_stability_update (the simulation.c
definition omits the population parameter its body dereferences and does
not compile; the model follows the simulation.h declaration), stability is
built from the entropy complement, the technology term
clampf (tech_level / 50) 0 1 and the population-pressure penalty
clampf (population / (carrying_cap + 1)) 0 1, the latter two clamped to
[0, 1] before combination, and when entropy lies in [0, 1] the entropy
complement also lies in [0, 1]. -/
theorem engine_stability_reads_population (e : EngineSoA ℚ) (p : PopSoA ℚ)
    (t : TechSoA ℚ) (i : ℕ) (hi : i < e.count) (hit : i < t.count)
    (hip : i < p.count) (he0 : 0 ≤ e.entropy i) (he1 : e.entropy i ≤ 1) :
    0 ≤ clampf (t.tech_level i / 50) (0 : ℚ) 1 ∧
    clampf (t.tech_level i / 50) (0 : ℚ) 1 ≤ 1 ∧
    0 ≤ clampf (p.population i / (p.carrying_cap i + 1)) (0 : ℚ) 1 ∧
    clampf (p.population i / (p.carrying_cap i + 1)) (0 : ℚ) 1 ≤ 1 ∧
    0 ≤ 1 - e.entropy i ∧ 1 - e.entropy i ≤ 1 ∧
    (engine_stability_update e p t).stability i =
      clampf ((1 - e.entropy i) *
        (1 / 2 + 1 / 2 * clampf (t.tech_level i / 50) 0 1) *
        (1 - 1 / 2 * clampf (p.population i / (p.carrying_cap i + 1)) 0 1))
        0 1 := by
  refine ⟨le_clampf _ _ _ (by norm_num), clampf_le _ _ _ (by norm_num),
    le_clampf _ _ _ (by norm_num), clampf_le _ _ _ (by norm_num),
    by linarith, by linarith, ?_⟩
  unfold engine_stability_update
  dsimp only
  rw [if_pos hi, if_pos hit, if_pos hip]

/-- C9 witness: with entropy 1/2, tech level 25 and the capacity-100
population, the modelled stability combines the three clamped factors. -/
theorem engine_stability_reads_population_witness :
    0 ≤ clampf (tTechQ.tech_level 0 / 50) (0 : ℚ) 1 ∧
    clampf (tTechQ.tech_level 0 / 50) (0 : ℚ) 1 ≤ 1 ∧
    0 ≤ clampf (pCap.population 0 / (pCap.carrying_cap 0 + 1)) (0 : ℚ) 1 ∧
    clampf (pCap.population 0 / (pCap.carrying_cap 0 + 1)) (0 : ℚ) 1 ≤ 1 ∧
    0 ≤ 1 - eEng.entropy 0 ∧ 1 - eEng.entropy 0 ≤ 1 ∧
    (engine_stability_update eEng pCap tTechQ).stability 0 =
      clampf ((1 - eEng.entropy 0) *
        (1 / 2 + 1 / 2 * clampf (tTechQ.tech_level 0 / 50) 0 1) *
        (1 - 1 / 2 * clampf (pCap.population 0 / (pCap.carrying_cap 0 + 1)) 0 1))
        0 1 :=
  engine_stability_reads_population eEng pCap tTechQ 0 (by decide) (by decide)
    (by decide) (by norm_num [eEng]) (by norm_num [eEng])

/-- C10: the miracle flag faith_miracle_check writes for an in-range index
depends only on the index, miracle_chance and divine_favor there: any two
containers agreeing on those two entries get the same flag (the LCG seed
is rebuilt from the index constant on every call, no stored RNG state and
no tick counter is read), and the flag equals the draw from the rebuilt
seed compared against miracle_chance * divine_favor. -/
theorem faith_miracle_check_deterministic (f g : FaithSoA ℚ)
    (out out2 : ℕ → ℤ) (i : ℕ) (hf : i < f.count) (hg : i < g.count)
    (hc : f.miracle_chance i = g.miracle_chance i)
    (hd : f.divine_favor i = g.divine_favor i) :
    faith_miracle_check f out i = faith_miracle_check g out2 i ∧
    faith_miracle_check f out i =
      (if lcg_float (miracleSeed i) < f.miracle_chance i * f.divine_favor i
        then 1 else 0) := by
  unfold faith_miracle_check
  rw [if_pos hf, if_pos hg, hc, hd]
  exact ⟨rfl, rfl⟩

/-- C10 witness: two faith containers that differ in every column except
miracle_chance and divine_favor at index 0 (and even in count) produce the
same miracle flag there, and that flag is the index-seeded draw. -/
theorem faith_miracle_check_deterministic_witness :
    faith_miracle_check fA (fun _ => 0) 0 = faith_miracle_check fB (fun _ => 5) 0 ∧
    faith_miracle_check fA (fun _ => 0) 0 =
      (if lcg_float (miracleSeed 0) < fA.miracle_chance 0 * fA.divine_favor 0
        then 1 else 0) :=
  faith_miracle_check_deterministic fA fB (fun _ => 0) (fun _ => 5) 0
    (by decide) (by decide) rfl rfl

end GodCasa
